import Mathlib

/-!
Verification development for the dstack backend facade and hub configurators.

The development shallowly embeds the code under `src/cli/dstack`:

* `AwsBackend` (src/cli/dstack/_internal/backend/aws/__init__.py) — the
  facade methods relevant to the claims, with their exact argument wiring.
* `AWSConfigurator` and `GCPConfigurator`
  (src/cli/dstack/_internal/hub/services/backends/{aws,gcp}/configurator.py).
* `NotebookProvider` (src/cli/dstack/_internal/providers/notebook/main.py).
* `BackendConfigError` (src/cli/dstack/hub/services/backends/base.py).

The base component modules (`dstack._internal.backend.base.secrets`, `jobs`,
`runs`, `artifacts`, `logs`) are not part of the given sources; they are
modelled from the specification (sections 4.2, 4.3, 4.4, 4.6, 4.7) and each
such definition is marked `Modelled from the spec:` in its doc comment.
External cloud SDK calls are modelled as explicit outcome parameters.
-/

/-- Job status labels, from the data model (spec section 3): the finite set
used by the job lifecycle state machine. -/
inductive JobStatus where
  | SUBMITTED
  | PENDING
  | RUNNING
  | DOWNLOADING
  | UPLOADING
  | STOPPING
  | STOPPED
  | ABORTED
  | FAILED
  | DONE
deriving DecidableEq, Repr

/-- A job is terminal once in STOPPED, ABORTED, FAILED or DONE (spec section 3). -/
def JobStatus.isTerminal : JobStatus → Bool
  | .STOPPED => true
  | .ABORTED => true
  | .FAILED => true
  | .DONE => true
  | _ => false

/-- A secret: name and value, from `dstack._internal.core.secret.Secret`. -/
structure Secret where
  secret_name : String
  secret_value : String
deriving DecidableEq, Repr

/-- State of the secrets subsystem: the provider vault holds
`(repo_id, secret_name, value)` entries; the per-repo name index lives in the
object store as `(repo_id, secret_name)` entries (spec section 4.6). -/
structure SecretsState where
  vault : List (String × String × String)
  index : List (String × String)
deriving DecidableEq, Repr

namespace base_secrets

/-- Modelled from the spec: `dstack._internal.backend.base.secrets.get_secret`
is not under src. Spec section 4.6: the value lives in the provider vault,
keyed by a deterministic name derived from `(repo_id, secret_name)`; absent
entries map to NotFound (None). -/
def get_secret (st : SecretsState) (repo_id : String) (secret_name : String) :
    Option Secret :=
  (st.vault.find? fun e => e.1 == repo_id && e.2.1 == secret_name).map
    fun e => ⟨e.2.1, e.2.2⟩

/-- Modelled from the spec: `dstack._internal.backend.base.secrets.add_secret`
is not under src. Spec section 4.6: write the vault entry, then the index
entry. -/
def add_secret (st : SecretsState) (repo_id : String) (secret : Secret) :
    SecretsState :=
  { vault := (repo_id, secret.secret_name, secret.secret_value) :: st.vault
    index := (repo_id, secret.secret_name) :: st.index }

/-- Modelled from the spec: `dstack._internal.backend.base.secrets.update_secret`
is not under src. Spec section 4.6: replace the vault entry for the name. -/
def update_secret (st : SecretsState) (repo_id : String) (secret : Secret) :
    SecretsState :=
  { vault := (repo_id, secret.secret_name, secret.secret_value) ::
      st.vault.filter fun e => !(e.1 == repo_id && e.2.1 == secret.secret_name)
    index := st.index }

/-- Modelled from the spec: `dstack._internal.backend.base.secrets.delete_secret`
is not under src. Spec section 4.6: remove the vault entry, then the index
entry. -/
def delete_secret (st : SecretsState) (repo_id : String) (secret_name : String) :
    SecretsState :=
  { vault := st.vault.filter fun e => !(e.1 == repo_id && e.2.1 == secret_name)
    index := st.index.filter fun e => !(e.1 == repo_id && e.2 == secret_name) }

/-- Modelled from the spec:
`dstack._internal.backend.base.secrets.list_secret_names` is not under src.
Spec section 4.6: the per-repo name index is read from the object store. -/
def list_secret_names (st : SecretsState) (repo_id : String) : List String :=
  (st.index.filter fun e => e.1 == repo_id).map fun e => e.2

end base_secrets

namespace AwsBackend

/-- `AwsBackend.list_secret_names` (src aws/__init__.py lines 264-265):
delegates to `base_secrets.list_secret_names(self._storage, repo_id)`. -/
def list_secret_names (st : SecretsState) (repo_id : String) : List String :=
  base_secrets.list_secret_names st repo_id

/-- `AwsBackend.get_secret` (src aws/__init__.py lines 267-268): the source
calls `base_secrets.get_secret(self._secrets_manager, repo_id, repo_id)`,
passing `repo_id` in the secret-name position; `secret_name` is unused. -/
def get_secret (st : SecretsState) (repo_id : String) (_secret_name : String) :
    Option Secret :=
  base_secrets.get_secret st repo_id repo_id

/-- `AwsBackend.add_secret` (src aws/__init__.py lines 270-271): delegates to
`base_secrets.add_secret(self._storage, self._secrets_manager, repo_id, secret)`. -/
def add_secret (st : SecretsState) (repo_id : String) (secret : Secret) :
    SecretsState :=
  base_secrets.add_secret st repo_id secret

/-- `AwsBackend.update_secret` (src aws/__init__.py lines 273-274): delegates to
`base_secrets.update_secret(self._storage, self._secrets_manager, repo_id, secret)`. -/
def update_secret (st : SecretsState) (repo_id : String) (secret : Secret) :
    SecretsState :=
  base_secrets.update_secret st repo_id secret

/-- `AwsBackend.delete_secret` (src aws/__init__.py lines 276-277): the source
calls `base_secrets.delete_secret(self._storage, self._secrets_manager,
repo_id, repo_id)`, passing `repo_id` in the secret-name position;
`secret_name` is unused. -/
def delete_secret (st : SecretsState) (repo_id : String) (_secret_name : String) :
    SecretsState :=
  base_secrets.delete_secret st repo_id repo_id

end AwsBackend

namespace AwsBackendSpec

/-- The delegation the spec describes for `get_secret` (spec section 4.8: thin
delegation forwarding each caller-supplied argument to the base function in
its intended position). -/
def get_secret (st : SecretsState) (repo_id : String) (secret_name : String) :
    Option Secret :=
  base_secrets.get_secret st repo_id secret_name

/-- The delegation the spec describes for `delete_secret` (spec section 4.8:
thin delegation forwarding each caller-supplied argument to the base function
in its intended position). -/
def delete_secret (st : SecretsState) (repo_id : String) (secret_name : String) :
    SecretsState :=
  base_secrets.delete_secret st repo_id secret_name

end AwsBackendSpec

/-- A lightweight job index entry (spec section 3): id, run name, status,
submission time, used for cheap listing. -/
structure JobHead where
  job_id : String
  run_name : String
  status : JobStatus
  submitted_at : Nat
deriving DecidableEq, Repr

/-- The derived, non-persisted aggregate over the job heads of one run
(spec section 3). -/
structure RunHead where
  run_name : String
  status : JobStatus
  submitted_at : Nat
deriving DecidableEq, Repr

/-- Object-store state as the jobs subsystem sees it: `JobHead` entries keyed
by `repo_id` (layout `job-heads/<repo_id>/<run_name>/<job_id>`, spec
section 6). -/
structure JobsStorage where
  job_heads : List (String × JobHead)
deriving DecidableEq, Repr

/-- Live compute state: whether the backing resource of a job is still alive
(spec section 6, `is_alive`). -/
def ComputeState : Type := String → Bool

namespace base_jobs

/-- Modelled from the spec: `dstack._internal.backend.base.jobs.list_job_heads`
is not under src. Spec section 4.2: a pure read against the object store,
returning the repo's job heads, restricted to one run when `run_name` is
given. -/
def list_job_heads (st : JobsStorage) (repo_id : String)
    (run_name : Option String) : List JobHead :=
  (st.job_heads.filter fun e =>
    e.1 == repo_id &&
      (match run_name with
       | none => true
       | some rn => e.2.run_name == rn)).map fun e => e.2

end base_jobs

namespace base_runs

/-- Modelled from the spec: the fixed run-level precedence of spec
section 4.3 step 3 — any RUNNING dominates; else any non-terminal dominates
over any terminal; else any FAILED/ABORTED dominates DONE/STOPPED. -/
def statusPrecedence : JobStatus → Nat
  | .RUNNING => 3
  | .FAILED => 1
  | .ABORTED => 1
  | .DONE => 0
  | .STOPPED => 0
  | _ => 2

/-- Modelled from the spec: run-level status as the aggregation of member
statuses under the fixed precedence (spec section 4.3 step 3); total and
deterministic by construction. -/
def runStatus (s0 : JobStatus) (rest : List JobStatus) : JobStatus :=
  rest.foldl (fun acc s => if statusPrecedence acc < statusPrecedence s then s else acc) s0

/-- Modelled from the spec: the effective status of one job head during
reconciliation (spec section 4.3 step 2) — a non-terminal job whose backing
compute resource is gone is rewritten to `interrupted_job_new_status`. -/
def effectiveStatus (include_request_heads : Bool)
    (interrupted_job_new_status : JobStatus) (compute : ComputeState)
    (h : JobHead) : JobStatus :=
  if include_request_heads && !h.status.isTerminal && !(compute h.job_id) then
    interrupted_job_new_status
  else
    h.status

/-- Run names in order of first appearance among the job heads. -/
def runNames (job_heads : List JobHead) : List String :=
  job_heads.foldr
    (fun h acc => if h.run_name ∈ acc then acc else h.run_name :: acc) []

/-- Insert a run head into a list sorted by submission time descending. -/
def insertRunHead (r : RunHead) : List RunHead → List RunHead
  | [] => [r]
  | x :: xs =>
    if x.submitted_at ≤ r.submitted_at then r :: x :: xs
    else x :: insertRunHead r xs

/-- Sort run heads by submission time descending (spec section 4.3: most
recent first). -/
def sortRunHeads : List RunHead → List RunHead
  | [] => []
  | r :: rs => insertRunHead r (sortRunHeads rs)

/-- Modelled from the spec: `dstack._internal.backend.base.runs.get_run_heads`
is not under src. Spec section 4.3: group the job heads by run name,
cross-check non-terminal jobs against live compute when
`include_request_heads` is set (rewriting interrupted jobs to
`interrupted_job_new_status`), aggregate member statuses with the fixed
precedence, and sort the run heads by submission time descending. The
`storage` argument mirrors the source signature. -/
def get_run_heads (_storage : JobsStorage) (compute : ComputeState)
    (job_heads : List JobHead) (include_request_heads : Bool)
    (interrupted_job_new_status : JobStatus) : List RunHead :=
  let eff := effectiveStatus include_request_heads interrupted_job_new_status compute
  let heads := (runNames job_heads).filterMap fun n =>
    match job_heads.filter fun h => h.run_name == n with
    | [] => none
    | m :: ms => some ⟨n, runStatus (eff m) (ms.map eff), m.submitted_at⟩
  sortRunHeads heads

end base_runs

namespace AwsBackend

/-- `AwsBackend.list_job_heads` (src aws/__init__.py lines 123-124): delegates
to `base_jobs.list_job_heads(self._storage, repo_id, run_name)`; `run_name`
defaults to None. -/
def list_job_heads (st : JobsStorage) (repo_id : String)
    (run_name : Option String := none) : List JobHead :=
  base_jobs.list_job_heads st repo_id run_name

/-- `AwsBackend.list_run_heads` (src aws/__init__.py lines 129-143): fetches
the job heads via `self.list_job_heads(repo_id=repo_id, run_name=run_name)`
and passes them to `base_runs.get_run_heads` together with
`include_request_heads` (default True) and `interrupted_job_new_status`
(default `JobStatus.FAILED`). -/
def list_run_heads (st : JobsStorage) (compute : ComputeState)
    (repo_id : String) (run_name : Option String := none)
    (include_request_heads : Bool := true)
    (interrupted_job_new_status : JobStatus := .FAILED) : List RunHead :=
  let job_heads := list_job_heads st repo_id run_name
  base_runs.get_run_heads st compute job_heads include_request_heads
    interrupted_job_new_status

end AwsBackend

/-- A log event (spec section 3): timestamp and message, ordered by
timestamp. -/
structure LogEvent where
  timestamp : Nat
  message : String
deriving DecidableEq, Repr

/-- State of the log subsystem: user-process events and backend-internal
diagnostic events, keyed by `(repo_id, run_name)` (spec section 4.7). -/
structure LogsStorage where
  events : List (String × String × LogEvent)
  diagnostics : List (String × String × LogEvent)
deriving DecidableEq, Repr

namespace logs

/-- Insert a log event into a list sorted by timestamp ascending. -/
def insertEvent (e : LogEvent) : List LogEvent → List LogEvent
  | [] => [e]
  | x :: xs =>
    if e.timestamp ≤ x.timestamp then e :: x :: xs
    else x :: insertEvent e xs

/-- Sort log events by timestamp ascending. -/
def sortEvents : List LogEvent → List LogEvent
  | [] => []
  | e :: es => insertEvent e (sortEvents es)

/-- Modelled from the spec: `dstack._internal.backend.aws.logs.poll_logs` is
not under src. Spec section 4.7: a finite sequence of the run's log events
strictly ordered by timestamp (ascending unless `descending`), bounded to
the window from `start_time` inclusive to `end_time` exclusive when
`end_time` is given, else open-ended; `diagnose` additionally surfaces
backend-internal diagnostic events interleaved in timestamp order. The
`bucket_name` argument mirrors the source signature. -/
def poll_logs (st : LogsStorage) (_bucket_name : String) (repo_id : String)
    (run_name : String) (start_time : Nat) (end_time : Option Nat)
    (descending : Bool) (diagnose : Bool) : List LogEvent :=
  let source := st.events ++ (if diagnose then st.diagnostics else [])
  let inWindow := fun (e : LogEvent) =>
    decide (start_time ≤ e.timestamp) &&
      (match end_time with
       | none => true
       | some t => decide (e.timestamp < t))
  let selected := (source.filter fun p =>
    p.1 == repo_id && p.2.1 == run_name && inWindow p.2.2).map fun p => p.2.2
  let sorted := sortEvents selected
  if descending then sorted.reverse else sorted

end logs

/-- An artifact file entry (from `dstack._internal.core.artifact.Artifact`):
the owning job, the file path relative to the artifact namespace, and the
file size. -/
structure Artifact where
  job_id : String
  file : String
  filesize : Nat
deriving DecidableEq, Repr

/-- Object-store state as the artifacts subsystem sees it: which jobs belong
to which `(repo_id, run_name)`, and the artifact files
`(repo_id, job_id, path, size)` (layout
`artifacts/<repo_id>/<job_id>/<artifact_name>/...`, spec section 6). -/
structure ArtifactsStorage where
  jobs : List (String × String × String)
  files : List (String × String × String × Nat)
deriving DecidableEq, Repr

namespace base_artifacts

/-- First path segment of a path string: the part before the first slash. -/
def firstSegment (path : String) : String :=
  ((path.splitOn "/").headD path)

/-- Modelled from the spec:
`dstack._internal.backend.base.artifacts.list_run_artifact_files` is not
under src. Spec section 4.4: list the object-store keys under the run's
artifact namespace filtered by `prefix`; `recursive` true returns every leaf
file, false groups by the next path segment (directory-like view, with zero
size for the synthesised entries). -/
def list_run_artifact_files (st : ArtifactsStorage) (repo_id : String)
    (run_name : String) (pfx : String) (recursive : Bool) : List Artifact :=
  let jobIds := (st.jobs.filter fun j => j.1 == repo_id && j.2.1 == run_name).map
    fun j => j.2.2
  let files := st.files.filter fun f =>
    f.1 == repo_id && jobIds.contains f.2.1 && pfx.isPrefixOf f.2.2.1
  if recursive then
    files.map fun f => ⟨f.2.1, f.2.2.1, f.2.2.2⟩
  else
    (files.map fun f => Artifact.mk f.2.1 (firstSegment f.2.2.1) 0).eraseDups

/-- Modelled from the spec:
`dstack._internal.backend.base.artifacts.download_run_artifact_files` is not
under src. Spec section 4.4: stream each listed object to a local destination
rooted at `output_dir`, optionally filtered to a caller-supplied `files_path`
subset. The result is the list of (local destination, object key) pairs the
download produces. -/
def download_run_artifact_files (_st : ArtifactsStorage) (_repo_id : String)
    (artifacts : List Artifact) (output_dir : Option String)
    (files_path : Option String) : List (String × String) :=
  let selected := match files_path with
    | none => artifacts
    | some fp => artifacts.filter fun a => fp.isPrefixOf a.file
  selected.map fun a => ((output_dir.getD ".") ++ "/" ++ a.file, a.file)

end base_artifacts

namespace AwsBackend

/-- `AwsBackend.poll_logs` (src aws/__init__.py lines 145-164): delegates to
`logs.poll_logs` with the storage, logs client, bucket name and all its own
arguments; `end_time` defaults to None, `descending` and `diagnose` to
False. -/
def poll_logs (st : LogsStorage) (bucket_name : String) (repo_id : String)
    (run_name : String) (start_time : Nat) (end_time : Option Nat := none)
    (descending : Bool := false) (diagnose : Bool := false) : List LogEvent :=
  logs.poll_logs st bucket_name repo_id run_name start_time end_time
    descending diagnose

/-- `AwsBackend.list_run_artifact_files` (src aws/__init__.py lines 166-171):
delegates to `base_artifacts.list_run_artifact_files(self._storage, repo_id,
run_name, prefix, recursive)`; `recursive` defaults to False. -/
def list_run_artifact_files (st : ArtifactsStorage) (repo_id : String)
    (run_name : String) (pfx : String) (recursive : Bool := false) :
    List Artifact :=
  base_artifacts.list_run_artifact_files st repo_id run_name pfx recursive

/-- `AwsBackend.download_run_artifact_files` (src aws/__init__.py lines
173-189): first obtains the run's artifact list via
`self.list_run_artifact_files(repo_id, run_name=run_name, prefix="",
recursive=True)`, then passes that list to
`base_artifacts.download_run_artifact_files` with `output_dir` and
`files_path`. -/
def download_run_artifact_files (st : ArtifactsStorage) (repo_id : String)
    (run_name : String) (output_dir : Option String)
    (files_path : Option String := none) : List (String × String) :=
  let artifacts := list_run_artifact_files st repo_id run_name "" true
  base_artifacts.download_run_artifact_files st repo_id artifacts output_dir
    files_path

end AwsBackend

/-- `BackendConfigError` (src hub/services/backends/base.py lines 8-12):
message, machine-readable code defaulting to "invalid_config", and the
offending field paths defaulting to the empty list. -/
structure BackendConfigError where
  message : String
  code : String
  fields : List (List String)
deriving DecidableEq, Repr

/-- A `BackendConfigError` built with only a message, as by
`BackendConfigError(message)` in Python: code "invalid_config" and empty
fields (src hub/services/backends/base.py line 9). -/
def BackendConfigError.ofMessage (message : String) : BackendConfigError :=
  { message := message, code := "invalid_config", fields := [] }

/-- A UI selection element (from `dstack._internal.hub.models.ProjectElement`):
the selected value and the offered (value, label) pairs. -/
structure ProjectElement where
  selected : Option String
  values : List (String × String)
deriving DecidableEq, Repr

/-- Python `str.replace("s3://", "")` on a character list: scan left to
right; at each position, if the pattern "s3://" starts here, drop it and
continue after it, else keep the character and continue (non-overlapping
occurrences, single pass, no rescan of the spliced result). -/
def stripS3 : List Char → List Char
  | [] => []
  | 's' :: '3' :: ':' :: '/' :: '/' :: rest => stripS3 rest
  | c :: rest => c :: stripS3 rest

/-- Python `s.replace("s3://", "")` on strings. -/
def pyReplaceS3 (s : String) : String :=
  ⟨stripS3 s.data⟩

/-- Whether a character list contains the pattern "s3://" at some
position. -/
def containsS3Aux : List Char → Bool
  | [] => false
  | 's' :: '3' :: ':' :: '/' :: '/' :: _ => true
  | _ :: rest => containsS3Aux rest

/-- Whether a string contains the substring "s3://". -/
def containsS3 (s : String) : Bool :=
  containsS3Aux s.data

/-- The region catalogue of the AWS configurator
(src hub/services/backends/aws/configurator.py lines 23-35): (label, id)
pairs. -/
def awsRegions : List (String × String) :=
  [("US East, N. Virginia", "us-east-1"),
   ("US East, Ohio", "us-east-2"),
   ("US West, N. California", "us-west-1"),
   ("US West, Oregon", "us-west-2"),
   ("Asia Pacific, Singapore", "ap-southeast-1"),
   ("Canada, Central", "ca-central-1"),
   ("Europe, Frankfurt", "eu-central-1"),
   ("Europe, Ireland", "eu-west-1"),
   ("Europe, London", "eu-west-2"),
   ("Europe, Paris", "eu-west-3"),
   ("Europe, Stockholm", "eu-north-1")]

/-- AWS project configuration fields
(from `dstack._internal.hub.models.AWSProjectConfig`). -/
structure AWSProjectConfig where
  region_name : String
  s3_bucket_name : String
  ec2_subnet_id : Option String
deriving DecidableEq, Repr

/-- AWS project configuration with credentials
(from `dstack._internal.hub.models.AWSProjectConfigWithCreds`); the
credentials dict is kept as an association list. -/
structure AWSProjectConfigWithCreds extends AWSProjectConfig where
  credentials : List (String × String)
deriving DecidableEq, Repr

namespace AWSConfigurator

/-- The region validation at the start of `AWSConfigurator.configure_project`
(src hub/services/backends/aws/configurator.py lines 44-48): a configured
region name outside the catalogue raises `BackendConfigError` built with only
a message. The remainder of the method performs live cloud calls and is out
of scope here. -/
def configure_project_region_check (region_name : Option String) :
    Except BackendConfigError Unit :=
  match region_name with
  | none => .ok ()
  | some r =>
    if (awsRegions.map fun p => p.2).contains r then .ok ()
    else .error (BackendConfigError.ofMessage ("Invalid AWS region " ++ r))

/-- `AWSConfigurator.create_config_auth_data_from_project_config`
(src hub/services/backends/aws/configurator.py lines 84-90): replaces
"s3://" with the empty string in `s3_bucket_name`, then returns the config
fields and the credentials dict. -/
def create_config_auth_data_from_project_config
    (pc : AWSProjectConfigWithCreds) :
    AWSProjectConfig × List (String × String) :=
  ({ region_name := pc.region_name
     s3_bucket_name := pyReplaceS3 pc.s3_bucket_name
     ec2_subnet_id := pc.ec2_subnet_id },
   pc.credentials)

end AWSConfigurator

/-- One entry of the GCP location catalogue
(src hub/services/backends/gcp/configurator.py lines 30-108). -/
structure GCPLocation where
  name : String
  regions : List String
  default_region : String
  default_zone : String
deriving DecidableEq, Repr

/-- The GCP location catalogue
(src hub/services/backends/gcp/configurator.py lines 30-108). -/
def GCP_LOCATIONS : List GCPLocation :=
  [{ name := "North America"
     regions := ["northamerica-northeast1", "northamerica-northeast2",
       "us-central1", "us-east1", "us-east4", "us-east5", "us-south1",
       "us-west1", "us-west2", "us-west3", "us-west4"]
     default_region := "us-west1", default_zone := "us-west1-b" },
   { name := "South America"
     regions := ["southamerica-east1", "southamerica-west1"]
     default_region := "southamerica-east1"
     default_zone := "southamerica-east1-b" },
   { name := "Europe"
     regions := ["europe-central2", "europe-north1", "europe-southwest1",
       "europe-west1", "europe-west2", "europe-west3", "europe-west4",
       "europe-west6", "europe-west8", "europe-west9"]
     default_region := "europe-west4", default_zone := "europe-west4-a" },
   { name := "Asia"
     regions := ["asia-east1", "asia-east2", "asia-northeast1",
       "asia-northeast2", "asia-northeast3", "asia-south1", "asia-south2",
       "asia-southeast1", "asia-southeast2"]
     default_region := "asia-southeast1"
     default_zone := "asia-southeast1-b" },
   { name := "Middle East"
     regions := ["me-west1"]
     default_region := "me-west1", default_zone := "me-west1-b" },
   { name := "Australia"
     regions := ["australia-southeast1", "australia-southeast2"]
     default_region := "australia-southeast1"
     default_zone := "australia-southeast1-c" }]

/-- The default geographic area
(src hub/services/backends/gcp/configurator.py line 28). -/
def DEFAULT_GEOGRAPHIC_AREA : String := "North America"

/-- Lexicographic comparison of character lists by code point, as Python
string comparison. -/
def charListLe : List Char → List Char → Bool
  | [], _ => true
  | _ :: _, [] => false
  | a :: as, b :: bs =>
    if a.toNat < b.toNat then true
    else if b.toNat < a.toNat then false
    else charListLe as bs

/-- Lexicographic string comparison by code point, as Python. -/
def pyStrLe (a b : String) : Bool :=
  charListLe a.data b.data

/-- Insert a string into a list sorted ascending. -/
def insertStr (s : String) : List String → List String
  | [] => [s]
  | x :: xs => if pyStrLe s x then s :: x :: xs else x :: insertStr s xs

/-- Sort strings ascending, as Python `sorted`. -/
def sortStrings : List String → List String
  | [] => []
  | s :: ss => insertStr s (sortStrings ss)

/-- Failures of the GCP configurator pipeline: a raised `BackendConfigError`,
or a re-raised provider HTTP error with its status code. -/
inductive GcpApiError where
  | config (e : BackendConfigError)
  | http (status : Nat)
deriving DecidableEq, Repr

namespace GCPConfigurator

/-- `GCPConfigurator._get_hub_geographic_area`
(src hub/services/backends/gcp/configurator.py lines 223-232): sort the
catalogue area names, substitute the default area for None, reject an unknown
area with `BackendConfigError` built with only a message, else return the
selection element. -/
def get_hub_geographic_area (default_area : Option String) :
    Except BackendConfigError ProjectElement :=
  let area_names := sortStrings (GCP_LOCATIONS.map fun l => l.name)
  let area := default_area.getD DEFAULT_GEOGRAPHIC_AREA
  if area_names.contains area then
    .ok { selected := some area, values := area_names.map fun n => (n, n) }
  else
    .error (BackendConfigError.ofMessage ("Invalid GCP area " ++ area))

/-- Modelled from the spec: `gcp_utils.get_service_account_email` is not
under src; it derives the deterministic email of the service account named
`name` in project `project_id` (GCP convention
`name@project.iam.gserviceaccount.com`). -/
def get_service_account_email (project_id : String) (name : String) : String :=
  name ++ "@" ++ project_id ++ ".iam.gserviceaccount.com"

/-- `GCPConfigurator._get_or_create_service_account`
(src hub/services/backends/gcp/configurator.py lines 343-369). The IAM
create call is an external SDK call, modelled by its outcome
`createResult` (ok with the created account's email, or an HTTP status
code): on success return the email; on status 409 return the existing
account's deterministic email; on status 403 raise `BackendConfigError` with
code "not_enough_permissions"; re-raise any other status. -/
def get_or_create_service_account (createResult : Except Nat String)
    (project_id : String) (name : String) : Except GcpApiError String :=
  match createResult with
  | .ok email => .ok email
  | .error status =>
    if status == 409 then .ok (get_service_account_email project_id name)
    else if status == 403 then
      .error (.config
        { message := "Not enough permissions. Default credentials must have Service Account Admin role."
          code := "not_enough_permissions", fields := [] })
    else .error (.http status)

/-- `GCPConfigurator._grant_roles_to_service_account`
(src hub/services/backends/gcp/configurator.py lines 371-391). The IAM
policy calls are external, modelled by their outcome `grantResult`: status
403 becomes `BackendConfigError` with code "not_enough_permissions"; any
other status is re-raised. -/
def grant_roles_to_service_account (grantResult : Except Nat Unit) :
    Except GcpApiError Unit :=
  match grantResult with
  | .ok _ => .ok ()
  | .error status =>
    if status == 403 then
      .error (.config
        { message := "Not enough permissions. Default credentials must have Security Admin role."
          code := "not_enough_permissions", fields := [] })
    else .error (.http status)

/-- `GCPConfigurator._check_if_can_create_service_account_key`
(src hub/services/backends/gcp/configurator.py lines 407-420). The key
creation attempt is external, modelled by `canCreateKey`: failure becomes
`BackendConfigError` with code "not_enough_permissions". -/
def check_if_can_create_service_account_key (canCreateKey : Bool) :
    Except GcpApiError Unit :=
  if canCreateKey then .ok ()
  else
    .error (.config
      { message := "Not enough permissions. Default credentials must have Service Account Key Admin role."
        code := "not_enough_permissions", fields := [] })

end GCPConfigurator

/-- GCP project configuration fields
(from `dstack._internal.hub.models.GCPProjectConfig`). -/
structure GCPProjectConfig where
  area : String
  region : String
  zone : String
  bucket_name : String
  vpc : String
  subnet : String
deriving DecidableEq, Repr

/-- GCP credentials (from `dstack._internal.hub.models.GCPProjectCreds`):
the credentials type ("default" or "service_account") and the remaining dict
fields. -/
structure GCPProjectCreds where
  type : String
  data : List (String × String)
deriving DecidableEq, Repr

/-- GCP project configuration with credentials
(from `dstack._internal.hub.models.GCPProjectConfigWithCreds`). -/
structure GCPProjectConfigWithCreds extends GCPProjectConfig where
  credentials : GCPProjectCreds
deriving DecidableEq, Repr

namespace GCPConfigurator

/-- `GCPConfigurator.create_config_auth_data_from_project_config`
(src hub/services/backends/gcp/configurator.py lines 162-175): return the
config fields and the credentials dict; when the credentials type is
"default", first bootstrap the service account named
`bucket_name ++ "-sa"` (create-or-reuse, grant roles, check key creation —
external calls modelled by their outcomes) and record its email in the auth
data. -/
def create_config_auth_data_from_project_config
    (createResult : Except Nat String) (grantResult : Except Nat Unit)
    (canCreateKey : Bool) (project_id : String)
    (pc : GCPProjectConfigWithCreds) :
    Except GcpApiError (GCPProjectConfig × List (String × String)) :=
  let config_data := pc.toGCPProjectConfig
  let auth_data := ("type", pc.credentials.type) :: pc.credentials.data
  if pc.credentials.type == "default" then do
    let sa_email ← get_or_create_service_account createResult project_id
      (pc.bucket_name ++ "-sa")
    let _ ← grant_roles_to_service_account grantResult
    let _ ← check_if_can_create_service_account_key canCreateKey
    return (config_data, auth_data ++ [("service_account_email", sa_email)])
  else
    .ok (config_data, auth_data)

end GCPConfigurator

/-- A single-quote character as a string, used to build shell command lines
without bare quote characters in the embedding. -/
def shellQuote : String := String.singleton (Char.ofNat 39)

/-- A caller-requested port mapping
(from `dstack._internal.providers.ports`). -/
structure PortMapping where
  port : Nat
  map_to_port : Option Nat
deriving DecidableEq, Repr

/-- An application exposed by a job (from `dstack._internal.core.app.AppSpec`):
port, optional host mapping, name, and optional URL query parameters (empty
when absent). -/
structure AppSpec where
  port : Nat
  map_to_port : Option Nat
  app_name : String
  url_query_params : List (String × String)
deriving DecidableEq, Repr

/-- A job specification (from `dstack._internal.core.job.JobSpec`), with the
fields `NotebookProvider.create_job_specs` populates; the externally-typed
`artifact_specs` and `requirements` fields are kept opaque as strings. -/
structure JobSpec where
  image_name : String
  commands : List String
  entrypoint : List String
  run_env : List (String × String)
  working_dir : Option String
  artifact_specs : List String
  requirements : Option String
  app_specs : List AppSpec
  build_commands : List String
deriving DecidableEq, Repr

/-- Modelled from the spec:
`dstack._internal.providers.ports.filter_reserved_ports` is not under src
(the spec treats providers it serves as out-of-scope `JobSpec` producers).
It drops caller port mappings that fall on provider-reserved ports, here the
range 10000-10999. -/
def filter_reserved_ports (ports : List PortMapping) : List PortMapping :=
  ports.filter fun pm => !(10000 ≤ pm.port && pm.port ≤ 10999)

/-- Modelled from the spec:
`dstack._internal.providers.ports.get_map_to_port` is not under src. It
returns the caller-requested host mapping for `port`, if any. -/
def get_map_to_port (ports : List PortMapping) (port : Nat) : Option Nat :=
  (ports.find? fun pm => pm.port == port).bind fun pm => pm.map_to_port

namespace OpenSSHExtension

/-- Modelled from the spec:
`dstack._internal.providers.extensions.OpenSSHExtension` is not under src;
the SSH server port it exposes. -/
def port : Nat := 10022

/-- Modelled from the spec: `OpenSSHExtension.patch_apps` is not under src;
it appends an app spec for the SSH server to the app list. -/
def patch_apps (apps : List AppSpec) (map_to_port : Option Nat) :
    List AppSpec :=
  apps ++ [{ port := port, map_to_port := map_to_port, app_name := "openssh"
             url_query_params := [] }]

/-- Modelled from the spec: `OpenSSHExtension.patch_commands` is not under
src; it appends the SSH server start-up commands. -/
def patch_commands (commands : List String) (ssh_key_pub : Option String) :
    List String :=
  commands ++ ["echo " ++ ssh_key_pub.getD "" ++ " >> ~/.ssh/authorized_keys"]

end OpenSSHExtension

/-- The provider state `NotebookProvider.create_job_specs` reads
(src providers/notebook/main.py): fields populated by `load`/`parse_args`
plus the base-provider data. -/
structure NotebookProvider where
  python : String
  version : Option String
  env : List (String × String)
  artifact_specs : List String
  working_dir : Option String
  resources : Option String
  image_name : String
  openssh_server : Bool
  ports : List PortMapping
  commands : List String
  build_commands : List String
  ssh_key_pub : Option String
deriving DecidableEq, Repr

namespace NotebookProvider

/-- `NotebookProvider.notebook_port` (src providers/notebook/main.py
line 17). -/
def notebook_port : Nat := 10000

/-- Modelled from the spec: `Provider._extend_commands_with_env` is not under
src; it prepends shell exports for the env dict. -/
def extend_commands_with_env (commands : List String)
    (env : List (String × String)) : List String :=
  commands ++ env.map fun e => "export " ++ e.1 ++ "=" ++ e.2

/-- `NotebookProvider._setup` (src providers/notebook/main.py lines 110-122):
the fixed Jupyter installation commands followed by the user's build
commands. -/
def setup_commands (p : NotebookProvider) : List String :=
  let commands :=
    ["conda install psutil -y",
     "pip install jupyter" ++ (match p.version with
       | some v => "==" ++ v
       | none => ""),
     "mkdir -p /root/.jupyter",
     "echo \"c.NotebookApp.allow_root = True\" > /root/.jupyter/jupyter_notebook_config.py",
     "echo \"c.NotebookApp.allow_origin = " ++ shellQuote ++ "*" ++ shellQuote ++ "\" >> /root/.jupyter/jupyter_notebook_config.py",
     "echo \"c.NotebookApp.open_browser = False\" >> /root/.jupyter/jupyter_notebook_config.py",
     "echo \"c.NotebookApp.ip = " ++ shellQuote ++ "0.0.0.0" ++ shellQuote ++ "\" >> /root/.jupyter/jupyter_notebook_config.py"]
  commands ++ p.build_commands

/-- `NotebookProvider._commands` (src providers/notebook/main.py lines
124-138): env exports, optional SSH start-up, the user commands, the Jupyter
port and token configuration lines, and the `jupyter notebook` launch. -/
def job_commands (p : NotebookProvider) : List String :=
  let commands : List String := []
  let commands := if p.env.isEmpty then commands
    else extend_commands_with_env commands p.env
  let commands := if p.openssh_server then
    OpenSSHExtension.patch_commands commands p.ssh_key_pub else commands
  let commands := commands ++ p.commands
  let commands := commands ++
    ["echo \"c.NotebookApp.port = " ++ toString notebook_port ++ "\" >> /root/.jupyter/jupyter_notebook_config.py",
     "echo \"c.NotebookApp.token = " ++ shellQuote ++ "$TOKEN" ++ shellQuote ++ "\" >> /root/.jupyter/jupyter_notebook_config.py"]
  commands ++ ["jupyter notebook"]

/-- `NotebookProvider.create_job_specs` (src providers/notebook/main.py lines
65-102). The generated token (`uuid.uuid4().hex` in the source) is an
explicit argument. The env dict maps "TOKEN" to the token; the numbered
notebook apps come from the filtered caller ports; the "notebook" app on
`notebook_port` carries the same token in its URL query parameters; when the
SSH server is enabled the apps are patched; the result is the one-element
job-spec list. -/
def create_job_specs (p : NotebookProvider) (token : String) : List JobSpec :=
  let env := [("TOKEN", token)]
  let apps := (filter_reserved_ports p.ports).enum.map fun ipm =>
    AppSpec.mk ipm.2.port ipm.2.map_to_port ("notebook" ++ toString (ipm.1 + 1)) []
  let apps := apps ++
    [{ port := notebook_port
       map_to_port := get_map_to_port p.ports notebook_port
       app_name := "notebook"
       url_query_params := [("token", token)] }]
  let apps := if p.openssh_server then
    OpenSSHExtension.patch_apps apps (get_map_to_port p.ports OpenSSHExtension.port)
  else apps
  [{ image_name := p.image_name
     commands := job_commands p
     entrypoint := ["/bin/bash", "-i", "-c"]
     run_env := env
     working_dir := p.working_dir
     artifact_specs := p.artifact_specs
     requirements := p.resources
     app_specs := apps
     build_commands := setup_commands p }]

end NotebookProvider

namespace base_runs

/-- The aggregated run status is one of the member statuses. -/
theorem runStatus_mem (s0 : JobStatus) (ss : List JobStatus) :
    runStatus s0 ss ∈ s0 :: ss := by
  induction ss generalizing s0 with
  | nil => simp [runStatus]
  | cons s ss ih =>
    simp only [runStatus, List.foldl_cons] at ih ⊢
    by_cases hc : statusPrecedence s0 < statusPrecedence s
    · simp only [if_pos hc]
      have h := ih s
      simp only [List.mem_cons] at h ⊢
      tauto
    · simp only [if_neg hc]
      have h := ih s0
      simp only [List.mem_cons] at h ⊢
      tauto

/-- The aggregated run status has maximal precedence among the members. -/
theorem runStatus_le (s0 : JobStatus) (ss : List JobStatus) :
    ∀ x ∈ s0 :: ss, statusPrecedence x ≤ statusPrecedence (runStatus s0 ss) := by
  induction ss generalizing s0 with
  | nil =>
    intro x hx
    simp only [List.mem_cons, List.not_mem_nil, or_false] at hx
    subst hx
    exact Nat.le_refl _
  | cons s ss ih =>
    intro x hx
    simp only [runStatus, List.foldl_cons] at ih ⊢
    by_cases hc : statusPrecedence s0 < statusPrecedence s
    · simp only [if_pos hc]
      simp only [List.mem_cons] at hx
      rcases hx with rfl | rfl | hx
      · exact Nat.le_trans (Nat.le_of_lt hc) (ih s s (List.mem_cons_self s ss))
      · exact ih x x (List.mem_cons_self x ss)
      · exact ih s x (List.mem_cons.mpr (Or.inr hx))
    · simp only [if_neg hc]
      simp only [List.mem_cons] at hx
      rcases hx with rfl | rfl | hx
      · exact ih x x (List.mem_cons_self x ss)
      · exact Nat.le_trans (Nat.le_of_not_lt hc) (ih s0 s0 (List.mem_cons_self s0 ss))
      · exact ih s0 x (List.mem_cons.mpr (Or.inr hx))

end base_runs

/-- A character list with no occurrence of "s3://" is unchanged by the
replace scan. -/
theorem stripS3_of_not_contains (l : List Char) (h : containsS3Aux l = false) :
    stripS3 l = l := by
  induction l using stripS3.induct with
  | case1 => rfl
  | case2 rest ih => simp [containsS3Aux] at h
  | case3 c rest hne ih =>
    rw [containsS3Aux.eq_3 c rest hne] at h
    rw [stripS3.eq_3 c rest hne, ih h]

/-- C1: the claimed secret lifecycle fails on the code. After
`add_secret("repo1", Secret("foo", "v1"))`, the facade
`get_secret("repo1", "foo")` returns None even though the base layer holds
the secret (the source passes `repo_id` in the secret-name position), and
`delete_secret("repo1", "foo")` deletes nothing, so `list_secret_names`
still lists "foo". -/
theorem secret_lifecycle_facade_bug :
    AwsBackend.get_secret
        (AwsBackend.add_secret ⟨[], []⟩ "repo1" ⟨"foo", "v1"⟩) "repo1" "foo" =
      none ∧
    base_secrets.get_secret
        (AwsBackend.add_secret ⟨[], []⟩ "repo1" ⟨"foo", "v1"⟩) "repo1" "foo" =
      some ⟨"foo", "v1"⟩ ∧
    AwsBackend.delete_secret
        (AwsBackend.add_secret ⟨[], []⟩ "repo1" ⟨"foo", "v1"⟩) "repo1" "foo" =
      AwsBackend.add_secret ⟨[], []⟩ "repo1" ⟨"foo", "v1"⟩ ∧
    AwsBackend.list_secret_names
        (AwsBackend.delete_secret
          (AwsBackend.add_secret ⟨[], []⟩ "repo1" ⟨"foo", "v1"⟩) "repo1" "foo")
        "repo1" =
      ["foo"] := by
  decide

/-- C2: the facade is not a thin delegation on the secret methods. At a
state holding secret "foo" for repo "repo1", the source's `get_secret` and
`delete_secret` differ from the delegation the spec describes (they forward
`repo_id` into the secret-name parameter and drop `secret_name`). -/
theorem facade_secret_delegation_bug :
    AwsBackend.get_secret
        (AwsBackend.add_secret ⟨[], []⟩ "repo1" ⟨"foo", "v1"⟩) "repo1" "foo" ≠
      AwsBackendSpec.get_secret
        (AwsBackend.add_secret ⟨[], []⟩ "repo1" ⟨"foo", "v1"⟩) "repo1" "foo" ∧
    AwsBackend.delete_secret
        (AwsBackend.add_secret ⟨[], []⟩ "repo1" ⟨"foo", "v1"⟩) "repo1" "foo" ≠
      AwsBackendSpec.delete_secret
        (AwsBackend.add_secret ⟨[], []⟩ "repo1" ⟨"foo", "v1"⟩) "repo1" "foo" := by
  decide

/-- C3: `list_run_heads` called without the optional arguments passes
exactly the job heads obtained from `list_job_heads` for that repo and run
to the reconciler, with `include_request_heads = True` and
`interrupted_job_new_status = JobStatus.FAILED`; consequently a stored
non-terminal job whose compute resource is gone is surfaced as FAILED. -/
theorem list_run_heads_default_reconciliation :
    (∀ (st : JobsStorage) (compute : ComputeState) (repo_id : String)
        (run_name : Option String),
        AwsBackend.list_run_heads st compute repo_id run_name =
          base_runs.get_run_heads st compute
            (base_jobs.list_job_heads st repo_id run_name) true
            JobStatus.FAILED) ∧
    (∀ (compute : ComputeState) (repo_id : String) (h : JobHead),
        h.status.isTerminal = false → compute h.job_id = false →
        AwsBackend.list_run_heads ⟨[(repo_id, h)]⟩ compute repo_id =
          [⟨h.run_name, JobStatus.FAILED, h.submitted_at⟩]) := by
  constructor
  · intro st compute repo run
    rfl
  · intro compute repo h hterm halive
    simp [AwsBackend.list_run_heads, AwsBackend.list_job_heads,
      base_jobs.list_job_heads, base_runs.get_run_heads, base_runs.runNames,
      base_runs.effectiveStatus, base_runs.runStatus, base_runs.sortRunHeads,
      base_runs.insertRunHead, hterm, halive, List.filter]

/-- C3 witness: a RUNNING job head whose compute reports not-alive is
surfaced as FAILED by `list_run_heads` with default arguments. -/
theorem list_run_heads_default_reconciliation_witness :
    AwsBackend.list_run_heads ⟨[("r", ⟨"j", "run1", JobStatus.RUNNING, 5⟩)]⟩
      (fun _ => false) "r" = [⟨"run1", JobStatus.FAILED, 5⟩] :=
  list_run_heads_default_reconciliation.2 (fun _ => false) "r"
    ⟨"j", "run1", JobStatus.RUNNING, 5⟩ rfl rfl

/-- The code and field paths of a raised `BackendConfigError`, None when the
computation succeeded. -/
def errorFields {α : Type} :
    Except BackendConfigError α → Option (String × List (List String))
  | .error e => some (e.code, e.fields)
  | .ok _ => none

/-- C4 counterexample: the claim that every `BackendConfigError` raised
during project configuration carries a non-empty fields list is false. The
invalid-area error of `GCPConfigurator` and the invalid-region error of
`AWSConfigurator.configure_project` both carry an empty fields list. -/
theorem config_error_empty_fields_counterexample :
    errorFields (GCPConfigurator.get_hub_geographic_area (some "Atlantis")) =
      some ("invalid_config", []) ∧
    errorFields
        (AWSConfigurator.configure_project_region_check (some "us-fake-1")) =
      some ("invalid_config", []) := by
  decide

/-- C4 amended: every `BackendConfigError` raised by the invalid-region
check of `AWSConfigurator.configure_project` and by
`GCPConfigurator._get_hub_geographic_area` carries the machine-readable
default code "invalid_config" but an empty fields list (no field path). -/
theorem config_error_region_area_code_amended :
    (∀ (r : String) (e : BackendConfigError),
        AWSConfigurator.configure_project_region_check (some r) = .error e →
        e.code = "invalid_config" ∧ e.fields = []) ∧
    (∀ (a : Option String) (e : BackendConfigError),
        GCPConfigurator.get_hub_geographic_area a = .error e →
        e.code = "invalid_config" ∧ e.fields = []) := by
  constructor
  · intro r e h
    simp only [AWSConfigurator.configure_project_region_check] at h
    by_cases hc : ((awsRegions.map fun p => p.2).contains r) = true
    · rw [if_pos hc] at h
      exact Except.noConfusion h
    · rw [if_neg hc] at h
      injection h with he
      rw [← he]
      exact ⟨rfl, rfl⟩
  · intro a e h
    simp only [GCPConfigurator.get_hub_geographic_area] at h
    by_cases hc : ((sortStrings (GCP_LOCATIONS.map fun l => l.name)).contains
        (a.getD DEFAULT_GEOGRAPHIC_AREA)) = true
    · rw [if_pos hc] at h
      exact Except.noConfusion h
    · rw [if_neg hc] at h
      injection h with he
      rw [← he]
      exact ⟨rfl, rfl⟩

/-- C4 amended witness: the invalid-region error for region "us-fake-1" has
code "invalid_config" and empty fields. -/
theorem config_error_region_area_code_amended_witness :
    (BackendConfigError.ofMessage "Invalid AWS region us-fake-1").code =
      "invalid_config" ∧
    (BackendConfigError.ofMessage "Invalid AWS region us-fake-1").fields =
      ([] : List (List String)) :=
  config_error_region_area_code_amended.1 "us-fake-1"
    (BackendConfigError.ofMessage "Invalid AWS region us-fake-1") rfl

/-- C5: run-level status precedence — a run whose member statuses are all
among RUNNING and DONE with RUNNING present reports RUNNING; members among
FAILED and DONE with FAILED present report FAILED; all DONE reports DONE.
The aggregation `base_runs.runStatus` is a total function of the member
statuses, hence deterministic. -/
theorem run_status_precedence :
    (∀ (s0 : JobStatus) (ss : List JobStatus),
        (∀ s ∈ s0 :: ss, s = JobStatus.RUNNING ∨ s = JobStatus.DONE) →
        JobStatus.RUNNING ∈ s0 :: ss →
        base_runs.runStatus s0 ss = JobStatus.RUNNING) ∧
    (∀ (s0 : JobStatus) (ss : List JobStatus),
        (∀ s ∈ s0 :: ss, s = JobStatus.FAILED ∨ s = JobStatus.DONE) →
        JobStatus.FAILED ∈ s0 :: ss →
        base_runs.runStatus s0 ss = JobStatus.FAILED) ∧
    (∀ (s0 : JobStatus) (ss : List JobStatus),
        (∀ s ∈ s0 :: ss, s = JobStatus.DONE) →
        base_runs.runStatus s0 ss = JobStatus.DONE) := by
  refine ⟨?_, ?_, ?_⟩
  · intro s0 ss hall hr
    have hm := base_runs.runStatus_mem s0 ss
    have hle := base_runs.runStatus_le s0 ss JobStatus.RUNNING hr
    rcases hall _ hm with h | h
    · exact h
    · rw [h] at hle
      exact absurd hle (by decide)
  · intro s0 ss hall hf
    have hm := base_runs.runStatus_mem s0 ss
    have hle := base_runs.runStatus_le s0 ss JobStatus.FAILED hf
    rcases hall _ hm with h | h
    · exact h
    · rw [h] at hle
      exact absurd hle (by decide)
  · intro s0 ss hall
    exact hall _ (base_runs.runStatus_mem s0 ss)

/-- C5 witness: the precedence cases evaluated on the two-member runs of the
claim. -/
theorem run_status_precedence_witness :
    base_runs.runStatus JobStatus.RUNNING [JobStatus.DONE] =
      JobStatus.RUNNING ∧
    base_runs.runStatus JobStatus.FAILED [JobStatus.DONE] =
      JobStatus.FAILED ∧
    base_runs.runStatus JobStatus.DONE [JobStatus.DONE] = JobStatus.DONE :=
  ⟨run_status_precedence.1 _ _ (by decide) (by decide),
   run_status_precedence.2.1 _ _ (by decide) (by decide),
   run_status_precedence.2.2 _ _ (by decide)⟩

/-- C6: for three events injected at timestamps t1 < t2 < t3,
`poll_logs(start=t1)` yields them ascending, `descending=True` yields them
descending, `poll_logs(start=t2)` yields the last two only, and
`end_time=t3` bounds the window to the half-open interval, excluding t3. -/
theorem poll_logs_ordering (repo run bucket : String) (t1 t2 t3 : Nat)
    (m1 m2 m3 : String) (h12 : t1 < t2) (h23 : t2 < t3) :
    AwsBackend.poll_logs
        ⟨[(repo, run, ⟨t2, m2⟩), (repo, run, ⟨t1, m1⟩), (repo, run, ⟨t3, m3⟩)],
          []⟩ bucket repo run t1 =
      [⟨t1, m1⟩, ⟨t2, m2⟩, ⟨t3, m3⟩] ∧
    AwsBackend.poll_logs
        ⟨[(repo, run, ⟨t2, m2⟩), (repo, run, ⟨t1, m1⟩), (repo, run, ⟨t3, m3⟩)],
          []⟩ bucket repo run t1 none true =
      [⟨t3, m3⟩, ⟨t2, m2⟩, ⟨t1, m1⟩] ∧
    AwsBackend.poll_logs
        ⟨[(repo, run, ⟨t2, m2⟩), (repo, run, ⟨t1, m1⟩), (repo, run, ⟨t3, m3⟩)],
          []⟩ bucket repo run t2 =
      [⟨t2, m2⟩, ⟨t3, m3⟩] ∧
    AwsBackend.poll_logs
        ⟨[(repo, run, ⟨t2, m2⟩), (repo, run, ⟨t1, m1⟩), (repo, run, ⟨t3, m3⟩)],
          []⟩ bucket repo run t1 (some t3) =
      [⟨t1, m1⟩, ⟨t2, m2⟩] := by
  have a1 : t1 ≤ t1 := Nat.le_refl _
  have a2 : t1 ≤ t2 := Nat.le_of_lt h12
  have a3 : t1 ≤ t3 := Nat.le_of_lt (Nat.lt_trans h12 h23)
  have b1 : ¬ t2 ≤ t1 := Nat.not_le.mpr h12
  have b2 : t2 ≤ t2 := Nat.le_refl _
  have b3 : t2 ≤ t3 := Nat.le_of_lt h23
  have c1 : t1 < t3 := Nat.lt_trans h12 h23
  have c3 : ¬ t3 < t3 := Nat.lt_irrefl _
  refine ⟨?_, ?_, ?_, ?_⟩ <;>
    simp [AwsBackend.poll_logs, logs.poll_logs, logs.sortEvents,
      logs.insertEvent, List.filter, a1, a2, a3, b1, b2, b3, c1, h23, c3]

/-- C6 witness: the ordering properties at timestamps 1 < 2 < 3. -/
theorem poll_logs_ordering_witness :
    AwsBackend.poll_logs
        ⟨[("r", "run", ⟨2, "b"⟩), ("r", "run", ⟨1, "a"⟩), ("r", "run", ⟨3, "c"⟩)],
          []⟩ "bucket" "r" "run" 1 =
      [⟨1, "a"⟩, ⟨2, "b"⟩, ⟨3, "c"⟩] ∧
    AwsBackend.poll_logs
        ⟨[("r", "run", ⟨2, "b"⟩), ("r", "run", ⟨1, "a"⟩), ("r", "run", ⟨3, "c"⟩)],
          []⟩ "bucket" "r" "run" 1 none true =
      [⟨3, "c"⟩, ⟨2, "b"⟩, ⟨1, "a"⟩] ∧
    AwsBackend.poll_logs
        ⟨[("r", "run", ⟨2, "b"⟩), ("r", "run", ⟨1, "a"⟩), ("r", "run", ⟨3, "c"⟩)],
          []⟩ "bucket" "r" "run" 2 =
      [⟨2, "b"⟩, ⟨3, "c"⟩] ∧
    AwsBackend.poll_logs
        ⟨[("r", "run", ⟨2, "b"⟩), ("r", "run", ⟨1, "a"⟩), ("r", "run", ⟨3, "c"⟩)],
          []⟩ "bucket" "r" "run" 1 (some 3) =
      [⟨1, "a"⟩, ⟨2, "b"⟩] :=
  poll_logs_ordering "r" "run" "bucket" 1 2 3 "a" "b" "c" (by decide) (by decide)

/-- C7: `download_run_artifact_files` downloads exactly the list obtained by
listing with empty prefix and `recursive=True`, rooted at `output_dir`; and
with a `files_path` restriction the result equals downloading the
`files_path`-filtered full recursive list — the filter applies to the full
list, not to the listing step. -/
theorem download_run_artifact_files_full_listing (st : ArtifactsStorage)
    (repo_id run_name : String) (output_dir : Option String)
    (files_path : Option String) :
    AwsBackend.download_run_artifact_files st repo_id run_name output_dir
        files_path =
      base_artifacts.download_run_artifact_files st repo_id
        (base_artifacts.list_run_artifact_files st repo_id run_name "" true)
        output_dir files_path ∧
    ∀ fp : String,
      AwsBackend.download_run_artifact_files st repo_id run_name output_dir
          (some fp) =
        base_artifacts.download_run_artifact_files st repo_id
          ((base_artifacts.list_run_artifact_files st repo_id run_name ""
              true).filter fun a => fp.isPrefixOf a.file)
          output_dir none :=
  ⟨rfl, fun _ => rfl⟩

/-- C8: service-account bootstrapping recovers from prior creation — when
the IAM create call fails with status 409 the method returns the existing
account's email instead of raising; status 403 becomes a
`BackendConfigError` with code "not_enough_permissions"; and with default
credentials `create_config_auth_data_from_project_config` succeeds on a
rerun whose create call returns 409. -/
theorem service_account_bootstrap_recovery :
    (∀ (project_id name : String),
        GCPConfigurator.get_or_create_service_account (.error 409) project_id
            name =
          .ok (GCPConfigurator.get_service_account_email project_id name)) ∧
    (∀ (project_id name : String), ∃ e : BackendConfigError,
        GCPConfigurator.get_or_create_service_account (.error 403) project_id
            name =
          .error (.config e) ∧ e.code = "not_enough_permissions") ∧
    (∀ (project_id : String) (pc : GCPProjectConfigWithCreds),
        pc.credentials.type = "default" →
        GCPConfigurator.create_config_auth_data_from_project_config
            (.error 409) (.ok ()) true project_id pc =
          .ok (pc.toGCPProjectConfig,
            ("type", pc.credentials.type) :: pc.credentials.data ++
              [("service_account_email",
                GCPConfigurator.get_service_account_email project_id
                  (pc.bucket_name ++ "-sa"))])) := by
  refine ⟨fun _ _ => rfl, fun _ _ => ⟨_, rfl, rfl⟩, ?_⟩
  intro project_id pc hdef
  simp [GCPConfigurator.create_config_auth_data_from_project_config, hdef,
    GCPConfigurator.get_or_create_service_account,
    GCPConfigurator.grant_roles_to_service_account,
    GCPConfigurator.check_if_can_create_service_account_key,
    Bind.bind, Except.bind, Pure.pure, Except.pure]

/-- C8 witness: a rerun with default credentials whose create call returns
409 succeeds and records the existing account's email. -/
theorem service_account_bootstrap_recovery_witness :
    GCPConfigurator.create_config_auth_data_from_project_config
        (.error 409) (.ok ()) true "proj"
        ⟨⟨"North America", "us-west1", "us-west1-b", "bkt", "default",
          "default"⟩, ⟨"default", []⟩⟩ =
      .ok (⟨"North America", "us-west1", "us-west1-b", "bkt", "default",
          "default"⟩,
        [("type", "default"),
         ("service_account_email", "bkt-sa@proj.iam.gserviceaccount.com")]) :=
  service_account_bootstrap_recovery.2.2 "proj"
    ⟨⟨"North America", "us-west1", "us-west1-b", "bkt", "default",
      "default"⟩, ⟨"default", []⟩⟩ rfl

/-- C9 counterexample: the claim that the stored `s3_bucket_name` contains
no occurrence of "s3://" is false — for input bucket name "s3:/s3:///" the
single-pass replace splices the surrounding text into a new "s3://", which
is stored. -/
theorem s3_bucket_replace_counterexample :
    (AWSConfigurator.create_config_auth_data_from_project_config
        ⟨⟨"us-east-1", "s3:/s3:///", none⟩, []⟩).1.s3_bucket_name =
      "s3://" ∧
    containsS3 ((AWSConfigurator.create_config_auth_data_from_project_config
        ⟨⟨"us-east-1", "s3:/s3:///", none⟩, []⟩).1.s3_bucket_name) = true := by
  decide

/-- C9 amended: the stored `s3_bucket_name` is the input with the
occurrences of "s3://" removed in one left-to-right non-overlapping pass
(Python `str.replace` semantics); in particular, for an input of the form
"s3://" ++ rest where rest contains no "s3://", the stored name is exactly
rest and contains no "s3://". Removal can, however, splice surrounding text
into a new "s3://" (see the counterexample). -/
theorem s3_bucket_replace_amended (region : String) (subnet : Option String)
    (creds : List (String × String)) (rest : String)
    (h : containsS3 rest = false) :
    (AWSConfigurator.create_config_auth_data_from_project_config
        ⟨⟨region, "s3://" ++ rest, subnet⟩, creds⟩).1.s3_bucket_name = rest ∧
    containsS3 ((AWSConfigurator.create_config_auth_data_from_project_config
        ⟨⟨region, "s3://" ++ rest, subnet⟩, creds⟩).1.s3_bucket_name) =
      false := by
  have hd : ("s3://" ++ rest).data =
      's' :: '3' :: ':' :: '/' :: '/' :: rest.data := by
    simp [String.data_append]
  have hs : pyReplaceS3 ("s3://" ++ rest) = rest := by
    show String.mk (stripS3 ("s3://" ++ rest).data) = rest
    rw [hd]
    rw [show stripS3 ('s' :: '3' :: ':' :: '/' :: '/' :: rest.data) =
      stripS3 rest.data from rfl]
    rw [stripS3_of_not_contains rest.data h]
  constructor
  · exact hs
  · show containsS3 (pyReplaceS3 ("s3://" ++ rest)) = false
    rw [hs]
    exact h

/-- C9 amended witness: the "s3://" prefix of "s3://my-bucket" is stripped
and the stored name "my-bucket" contains no "s3://". -/
theorem s3_bucket_replace_amended_witness :
    (AWSConfigurator.create_config_auth_data_from_project_config
        ⟨⟨"us-east-1", "s3://" ++ "my-bucket", none⟩, []⟩).1.s3_bucket_name =
      "my-bucket" ∧
    containsS3 ((AWSConfigurator.create_config_auth_data_from_project_config
        ⟨⟨"us-east-1", "s3://" ++ "my-bucket", none⟩,
          []⟩).1.s3_bucket_name) = false :=
  s3_bucket_replace_amended "us-east-1" none [] "my-bucket" rfl

/-- C10: `create_job_specs` returns exactly one `JobSpec`; its env maps
"TOKEN" to the generated token, and its app specs contain an app named
"notebook" on port `notebook_port` (10000) whose URL query parameters carry
the same token, so the notebook app's access token always matches the
environment variable given to the job. -/
theorem notebook_job_specs_single_token (p : NotebookProvider)
    (token : String) :
    ∃ js : JobSpec,
      NotebookProvider.create_job_specs p token = [js] ∧
      js.run_env = [("TOKEN", token)] ∧
      ∃ app ∈ js.app_specs,
        app.app_name = "notebook" ∧
        app.port = NotebookProvider.notebook_port ∧
        app.url_query_params = [("token", token)] := by
  refine ⟨_, rfl, rfl, ?_⟩
  by_cases h : p.openssh_server
  · simp only [NotebookProvider.create_job_specs,
      OpenSSHExtension.patch_apps, h, if_true, List.mem_append,
      List.mem_singleton]
    exact ⟨⟨NotebookProvider.notebook_port,
      get_map_to_port p.ports NotebookProvider.notebook_port, "notebook",
      [("token", token)]⟩, Or.inl (Or.inr rfl), rfl, rfl, rfl⟩
  · simp only [NotebookProvider.create_job_specs, h, if_false,
      Bool.false_eq_true, List.mem_append, List.mem_singleton]
    exact ⟨⟨NotebookProvider.notebook_port,
      get_map_to_port p.ports NotebookProvider.notebook_port, "notebook",
      [("token", token)]⟩, Or.inr rfl, rfl, rfl, rfl⟩
